import Mathlib

/-!
Verification of the `/api/transform` request/response pipeline
(`src/unnamed/part_001`): request validation (JSON and multipart branches),
the two-pass generate/restyle flow, schema validation of model output,
sanitization of placeholder `next_actions`, and error normalization.

The pipeline is embedded shallowly: the OpenAI calls are an oracle input
(each call either throws a JS value or yields the `output_text` of the
response), strings are Lean strings, and JSON values are an explicit
inductive. Control flow, branch order, status codes and error messages
follow the source line by line.
-/

set_option autoImplicit false

namespace Transform

/-! ## JS string helpers: `trim` and `toLocaleString` -/

/-- JavaScript `String.prototype.trim`: drop whitespace from both ends. -/
def jsTrimChars (l : List Char) : List Char :=
  ((l.dropWhile Char.isWhitespace).reverse.dropWhile Char.isWhitespace).reverse

/-- `s.trim()` on a JS string. -/
def jsTrim (s : String) : String :=
  String.mk (jsTrimChars s.data)

/-- Group a reversed digit list into blocks of three separated by commas
(fuel-driven so it reduces definitionally). -/
def groupRevAux : Nat → List Char → List Char
  | 0, l => l
  | fuel + 1, l =>
    if l.length ≤ 3 then l else l.take 3 ++ ',' :: groupRevAux fuel (l.drop 3)

/-- `Number.prototype.toLocaleString` under the default en-US grouping:
decimal digits with a comma every three digits. -/
def toLocaleString (n : Nat) : String :=
  String.mk ((groupRevAux (Nat.repr n).data.length (Nat.repr n).data.reverse).reverse)

/-! ## JSON values (result of `JSON.parse`) -/

/-- A parsed JSON value. Numbers are modelled as integers; no field of the
transform schemas is numeric, so no precision is lost for this pipeline. -/
inductive Json where
  | null
  | bool (b : Bool)
  | num (n : Int)
  | str (s : String)
  | arr (elems : List Json)
  | obj (fields : List (String × Json))

/-- Property lookup on a parsed JSON object: JS keeps the last duplicate key. -/
def jGet (fields : List (String × Json)) (key : String) : Option Json :=
  fields.foldl (fun acc kv => if kv.1 = key then some kv.2 else acc) none

/-! ## Configuration (environment variables with their defaults) -/

def MAX_INPUT_CHARS : Nat := 100000

def MAX_FILE_BYTES : Nat := 10 * 1024 * 1024

structure Config where
  maxInputChars : Nat
  maxFileBytes : Nat
deriving DecidableEq

def defaultConfig : Config := ⟨MAX_INPUT_CHARS, MAX_FILE_BYTES⟩

/-! ## Request schemas (zod) -/

/-- The zod issue codes this route distinguishes: the handler only asks
whether some issue has code `too_big`. -/
inductive ZodIssueCode where
  | invalid_type
  | too_small
  | too_big
deriving BEq, DecidableEq

structure TransformRequest where
  text : String
  notes : Option String
deriving DecidableEq

/-- `z.string().min(1).max(MAX_INPUT_CHARS)` applied to the `text` field. -/
def textCheck (cfg : Config) (o : Option Json) : Except (List ZodIssueCode) String :=
  match o with
  | some (.str s) =>
    let iss := (if s.length < 1 then [ZodIssueCode.too_small] else []) ++
               (if s.length > cfg.maxInputChars then [ZodIssueCode.too_big] else [])
    if iss.isEmpty then .ok s else .error iss
  | some _ => .error [ZodIssueCode.invalid_type]
  | none => .error [ZodIssueCode.invalid_type]

/-- `z.string().max(10000).optional()` applied to the `notes` field. -/
def notesCheck (o : Option Json) : Except (List ZodIssueCode) (Option String) :=
  match o with
  | none => .ok none
  | some (.str s) =>
    if s.length > 10000 then .error [ZodIssueCode.too_big] else .ok (some s)
  | some _ => .error [ZodIssueCode.invalid_type]

/-- `transformRequestSchema.parse`: a JSON object with `text` (1 to
`MAX_INPUT_CHARS` chars) and optional `notes` (at most 10000 chars);
issues of both fields are collected in declaration order, as zod does. -/
def parseTransformRequest (cfg : Config) (j : Json) :
    Except (List ZodIssueCode) TransformRequest :=
  match j with
  | .obj fields =>
    match textCheck cfg (jGet fields "text"), notesCheck (jGet fields "notes") with
    | .ok t, .ok n => .ok ⟨t, n⟩
    | .error e1, .error e2 => .error (e1 ++ e2)
    | .error e1, .ok _ => .error e1
    | .ok _, .error e2 => .error e2
  | _ => .error [ZodIssueCode.invalid_type]

/-! ## Response schema (zod) -/

structure Section where
  heading : String
  bullets : List String
deriving DecidableEq

structure NextAction where
  action : String
  first_step : String
deriving DecidableEq

structure TransformResponse where
  title : String
  summary : String
  sections : List Section
  next_actions : List NextAction
deriving DecidableEq

def parseSection (j : Json) : Option Section :=
  match j with
  | .obj fields =>
    match jGet fields "heading", jGet fields "bullets" with
    | some (.str h), some (.arr bs) =>
      ((bs.mapM fun b => match b with | Json.str s => some s | _ => none :
          Option (List String))).map fun bullets => ⟨h, bullets⟩
    | _, _ => none
  | _ => none

def parseNextAction (j : Json) : Option NextAction :=
  match j with
  | .obj fields =>
    match jGet fields "action", jGet fields "first_step" with
    | some (.str a), some (.str f) => some ⟨a, f⟩
    | _, _ => none
  | _ => none

/-- `transformResponseSchema.parse`: the exact TransformResponse shape,
including the `sections[].bullets[]` and `next_actions[].{action,first_step}`
nesting. Any mismatch is a zod error (`none`). -/
def parseTransformResponse (j : Json) : Option TransformResponse :=
  match j with
  | .obj fields =>
    match jGet fields "title", jGet fields "summary",
          jGet fields "sections", jGet fields "next_actions" with
    | some (.str t), some (.str s), some (.arr secs), some (.arr acts) =>
      match secs.mapM parseSection, acts.mapM parseNextAction with
      | some ss, some nas => some ⟨t, s, ss, nas⟩
      | _, _ => none
    | _, _, _, _ => none
  | _ => none

/-! ## Notes gating and sanitization -/

/-- `shouldApplyNotesRewritePass`: `Boolean(notes && notes.trim().length > 0)`. -/
def shouldApplyNotesRewritePass (notes : Option String) : Bool :=
  match notes with
  | none => false
  | some s => (!(s == "")) && ((jsTrim s).length > 0)

/-- The filter applied to `next_actions` entries before delivery:
`a.action.trim().length > 0 && a.first_step.trim().length > 0`. -/
def keepNextAction (a : NextAction) : Bool :=
  ((jsTrim a.action).length > 0) && ((jsTrim a.first_step).length > 0)

/-- The `sanitized` value built at the end of `POST`: same response with
blank/placeholder `next_actions` entries filtered out. -/
def sanitize (r : TransformResponse) : TransformResponse :=
  { r with next_actions := r.next_actions.filter keepNextAction }

/-! ## JS error values and `normalizeOpenAIError` -/

/-- The shape of a thrown JS value as probed by `normalizeOpenAIError`. -/
inductive JsVal where
  | undef
  | null
  | boolean (b : Bool)
  | num (n : Int)
  | str (s : String)
  | obj (fields : List (String × JsVal))

/-- JS falsiness. -/
def jsFalsy : JsVal → Bool
  | .undef => true
  | .null => true
  | .boolean b => !b
  | .num n => n == 0
  | .str s => s == ""
  | .obj _ => false

/-- `typeof v === "object"` (true for `null` and for objects). -/
def jsTypeofObject : JsVal → Bool
  | .null => true
  | .obj _ => true
  | _ => false

/-- Property access `v[key]`: `undefined` when absent or not an object. -/
def jsGetField (v : JsVal) (key : String) : JsVal :=
  match v with
  | .obj fields => fields.foldl (fun acc kv => if kv.1 = key then kv.2 else acc) JsVal.undef
  | _ => .undef

def fallbackMessage : String := "Failed to analyze input. Please try again."

/-- A string member passes `typeof m === "string" && m.trim()` exactly when
its trim is non-empty; the truthy value kept is the trimmed string. -/
def messageFromJsVal (v : JsVal) : Option String :=
  match v with
  | .str s => if (jsTrim s).length > 0 then some (jsTrim s) else none
  | _ => none

/-- `normalizeOpenAIError`: status from a numeric `status` member (500
otherwise), message from `error.message` or `message` (trimmed, with a
fixed fallback). -/
def normalizeOpenAIError (e : JsVal) : Int × String :=
  if jsFalsy e || !(jsTypeofObject e) then (500, fallbackMessage)
  else
    let status : Int := match jsGetField e "status" with | .num n => n | _ => 500
    let errField := jsGetField e "error"
    let nested : JsVal :=
      if (!(jsFalsy errField)) && jsTypeofObject errField then jsGetField errField "message"
      else .undef
    let message : String :=
      match messageFromJsVal nested with
      | some m => m
      | none => (messageFromJsVal (jsGetField e "message")).getD fallbackMessage
    (status, message)

/-- The provider status carried by a thrown value: its numeric `status`
member, when the value is a truthy object carrying one. -/
def getNumStatus (e : JsVal) : Option Int :=
  if jsFalsy e || !(jsTypeofObject e) then none
  else match jsGetField e "status" with | .num n => some n | _ => none

/-! ## Request and oracle model -/

structure FileData where
  size : Nat
deriving DecidableEq

/-- A `FormData` entry: `form.get` yields a string or a `File`. -/
inductive FormEntry where
  | str (s : String)
  | file (f : FileData)
deriving DecidableEq

/-- The inbound request body: the handler branches on the content type.
For the JSON branch, `.error` stands for a body `request.json()` rejects. -/
inductive ReqBody where
  | multipart (file : Option FormEntry) (notes : Option FormEntry)
  | jsonReq (body : Except Unit Json)

structure PostRequest where
  hasApiKey : Bool
  body : ReqBody

/-- The `output_text` of one provider call, as the handler observes it:
absent (`none` after `?? null`), empty (falsy), non-JSON, or parsed JSON. -/
inductive RawOut where
  | empty
  | unparsable
  | parsed (j : Json)

/-- The provider oracle: outcome of the first (generate) call and of the
optional second (restyle) call. `.error e` is a thrown JS value. -/
structure Oracle where
  call1 : Except JsVal (Option RawOut)
  call2 : Except JsVal (Option RawOut)

/-- An exception propagating to the outer `catch`. -/
inductive Thrown where
  | zodError
  | jsError (e : JsVal)

/-- `new Error("No response from OpenAI")` as seen by `normalizeOpenAIError`. -/
def noResponseError : JsVal :=
  .obj [("message", .str "No response from OpenAI")]

/-! ## Response model -/

inductive ResponseBody where
  | errorBody (message : String)
  | success (r : TransformResponse)
deriving DecidableEq

/-- A delivered HTTP response: status, JSON body, and the
`x-received-notes-length` header set on success. -/
structure HttpResponse where
  status : Int
  body : ResponseBody
  notesLenHeader : Option Nat
deriving DecidableEq

def textTooLargeMessage (cfg : Config) : String :=
  "Input text is too large. Maximum is " ++ toLocaleString cfg.maxInputChars ++ " characters."

def fileTooLargeMessage (cfg : Config) : String :=
  "File is too large. Maximum is " ++ toLocaleString cfg.maxFileBytes ++ " bytes."

def schemaErrorResponse : HttpResponse :=
  ⟨502, .errorBody "Model returned an unexpected response shape. Please try again.", none⟩

/-! ## The POST pipeline -/

/-- The validated payload the handler proceeds with. -/
inductive Payload where
  | fileRef (f : FileData)
  | textPayload (t : String)
deriving DecidableEq

structure Proceed where
  payload : Payload
  notes : Option String
deriving DecidableEq

/-- Request validation, in source order. Multipart: parse `notes` (a zod
failure here THROWS to the outer catch), then require `file`, then the size
gate. JSON: a body parse failure is 400; zod issues map to 413 when some
issue is `too_big`, else 400. -/
def validateRequest (cfg : Config) (body : ReqBody) :
    Except Thrown (Sum HttpResponse Proceed) :=
  match body with
  | .multipart fileEntry notesEntry =>
    let notesStep : Except Thrown (Option String) :=
      match notesEntry with
      | some (.str s) => if s.length > 10000 then .error .zodError else .ok (some s)
      | _ => .ok none
    match notesStep with
    | .error t => .error t
    | .ok notes =>
      match fileEntry with
      | some (.file f) =>
        if f.size > cfg.maxFileBytes then
          .ok (.inl ⟨413, .errorBody (fileTooLargeMessage cfg), none⟩)
        else
          .ok (.inr ⟨.fileRef f, notes⟩)
      | _ =>
        .ok (.inl ⟨400, .errorBody "Missing file upload (expected form field \x27file\x27).", none⟩)
  | .jsonReq bodyJson =>
    match bodyJson with
    | .error _ => .ok (.inl ⟨400, .errorBody "Invalid request body", none⟩)
    | .ok j =>
      match parseTransformRequest cfg j with
      | .ok req => .ok (.inr ⟨.textPayload req.text, req.notes⟩)
      | .error issues =>
        if issues.any (fun i => i == ZodIssueCode.too_big) then
          .ok (.inl ⟨413, .errorBody (textTooLargeMessage cfg), none⟩)
        else
          .ok (.inl ⟨400, .errorBody "Invalid request format", none⟩)

/-- First pass: a thrown provider error propagates; a falsy `output_text`
raises `Error("No response from OpenAI")`; non-JSON text is answered 502
directly; JSON is validated (a zod failure throws to the outer catch). -/
def processPass1 (call1 : Except JsVal (Option RawOut)) :
    Except Thrown (Sum HttpResponse TransformResponse) :=
  match call1 with
  | .error e => .error (.jsError e)
  | .ok none => .error (.jsError noResponseError)
  | .ok (some .empty) => .error (.jsError noResponseError)
  | .ok (some .unparsable) =>
    .ok (.inl ⟨502, .errorBody "Model returned an invalid response format. Please try again.", none⟩)
  | .ok (some (.parsed j)) =>
    match parseTransformResponse j with
    | none => .error .zodError
    | some r => .ok (.inr r)

/-- The restyle pass. A thrown provider error propagates (the call is
outside the inner try); a falsy, non-JSON or schema-invalid rewrite falls
back to the already-validated first-pass result. -/
def applyRewrite (validated : TransformResponse) (call2 : Except JsVal (Option RawOut)) :
    Except Thrown TransformResponse :=
  match call2 with
  | .error e => .error (.jsError e)
  | .ok (some (.parsed j)) =>
    match parseTransformResponse j with
    | some r2 => .ok r2
    | none => .ok validated
  | .ok _ => .ok validated

/-- The `POST` handler: API-key gate, request validation, first pass,
optional restyle pass, sanitization; the outer catch maps a `ZodError` to a
fixed 502 and any other thrown value through `normalizeOpenAIError`. -/
def POST (cfg : Config) (req : PostRequest) (oracle : Oracle) : HttpResponse :=
  let result : Except Thrown HttpResponse :=
    if req.hasApiKey = false then
      .ok ⟨500, .errorBody "Server is missing OPENAI_API_KEY configuration.", none⟩
    else
      match validateRequest cfg req.body with
      | .error t => .error t
      | .ok (.inl resp) => .ok resp
      | .ok (.inr p) =>
        match processPass1 oracle.call1 with
        | .error t => .error t
        | .ok (.inl resp) => .ok resp
        | .ok (.inr validated) =>
          let afterRewrite : Except Thrown TransformResponse :=
            if shouldApplyNotesRewritePass p.notes then applyRewrite validated oracle.call2
            else .ok validated
          match afterRewrite with
          | .error t => .error t
          | .ok v => .ok ⟨200, .success (sanitize v), some ((p.notes.getD "").length)⟩
  match result with
  | .ok resp => resp
  | .error .zodError => schemaErrorResponse
  | .error (.jsError e) =>
    ⟨(normalizeOpenAIError e).1, .errorBody (normalizeOpenAIError e).2, none⟩

/-! ## Concrete fixtures used by witnesses and counterexamples -/

/-- A well-formed model output. -/
def goodJson : Json :=
  .obj [("title", .str "T"), ("summary", .str "S"),
        ("sections", .arr []), ("next_actions", .arr [])]

def goodResp : TransformResponse := ⟨"T", "S", [], []⟩

/-- A second well-formed model output, used as a restyled result. -/
def goodJson2 : Json :=
  .obj [("title", .str "T2"), ("summary", .str "S2"),
        ("sections", .arr []), ("next_actions", .arr [])]

def goodResp2 : TransformResponse := ⟨"T2", "S2", [], []⟩

/-- A model output that is valid JSON but omits the required `summary`. -/
def jMissingSummary : Json :=
  .obj [("title", .str "t"), ("sections", .arr []), ("next_actions", .arr [])]

/-- A valid JSON-branch request without notes. -/
def reqEx : PostRequest := ⟨true, .jsonReq (.ok (.obj [("text", .str "hi")]))⟩

/-- A valid JSON-branch request whose notes ask for a restyle. -/
def reqNotes : PostRequest :=
  ⟨true, .jsonReq (.ok (.obj [("text", .str "hi"), ("notes", .str "as a poem")]))⟩

/-- A notes string one character over the 10000-character ceiling. -/
def longNotes : String := String.mk (List.replicate 10001 'x')

def oracleNone : Oracle := ⟨.ok none, .ok none⟩

/-! ## Helper lemmas -/

theorem longNotes_length : longNotes.length = 10001 := by
  unfold longNotes
  rw [String.mk_length, List.length_replicate]

/-- A character-list run test used to state what a message does (not) report. -/
def startsWithChars : List Char → List Char → Bool
  | [], _ => true
  | _ :: _, [] => false
  | a :: as, b :: bs => a == b && startsWithChars as bs

def hasRunChars (needle : List Char) : List Char → Bool
  | [] => needle.isEmpty
  | c :: rest => startsWithChars needle (c :: rest) || hasRunChars needle rest

/-- `substrB n h` holds when `n` occurs contiguously inside `h`. -/
def substrB (needle hay : String) : Bool :=
  hasRunChars needle.data hay.data

theorem jsTrim_empty : jsTrim "" = "" := rfl

/-- The trimmed character list is empty exactly when every character is
whitespace. -/
theorem jsTrimChars_eq_nil_iff (l : List Char) :
    jsTrimChars l = [] ↔ ∀ c ∈ l, c.isWhitespace = true := by
  unfold jsTrimChars
  rw [List.reverse_eq_nil_iff, List.dropWhile_eq_nil_iff]
  constructor
  · intro h c hc
    have hsplit := List.takeWhile_append_dropWhile (p := Char.isWhitespace) (l := l)
    rw [← hsplit] at hc
    rcases List.mem_append.mp hc with h1 | h1
    · exact List.mem_takeWhile_imp h1
    · exact h c (List.mem_reverse.mpr h1)
  · intro h c hc
    exact h c (List.dropWhile_sublist (p := Char.isWhitespace) |>.mem (List.mem_reverse.mp hc))

/-- A string passes the `trim().length > 0` test exactly when it holds at
least one non-whitespace character. -/
theorem jsTrim_length_pos_iff (s : String) :
    ((jsTrim s).length > 0) ↔ ∃ c ∈ s.data, c.isWhitespace = false := by
  have hlen : (jsTrim s).length = (jsTrimChars s.data).length := by
    simp [jsTrim]
  rw [hlen, gt_iff_lt, List.length_pos, ne_eq, jsTrimChars_eq_nil_iff]
  push_neg
  constructor
  · rintro ⟨c, hc, hne⟩
    exact ⟨c, hc, by simpa using hne⟩
  · rintro ⟨c, hc, hne⟩
    exact ⟨c, hc, by simp [hne]⟩

/-- The field list of a JSON body carrying `text` and optional `notes`. -/
def mkJsonFields (s : String) (no : Option String) : List (String × Json) :=
  ("text", Json.str s) ::
    (match no with | none => [] | some ns => [("notes", Json.str ns)])

def mkJsonBody (s : String) (no : Option String) : Json :=
  .obj (mkJsonFields s no)

/-- A notes option within its 10000-character budget. -/
def notesStrOk : Option String → Bool
  | none => true
  | some ns => ns.length ≤ 10000

/-- A multipart notes entry that does not make the zod parse throw. -/
def notesEntryOk : Option FormEntry → Bool
  | some (.str s) => s.length ≤ 10000
  | _ => true

/-- The notes value the multipart branch proceeds with. -/
def formNotesVal : Option FormEntry → Option String
  | some (.str s) => some s
  | _ => none

theorem parseTransformRequest_mkJsonBody (cfg : Config) (s : String)
    (no : Option String) (hn : notesStrOk no = true) :
    parseTransformRequest cfg (mkJsonBody s no) =
      match textCheck cfg (some (.str s)) with
      | .ok t => .ok ⟨t, no⟩
      | .error e => .error e := by
  have hT : jGet (mkJsonFields s no) "text" = some (.str s) := by
    cases no <;> rfl
  have hN : jGet (mkJsonFields s no) "notes" = no.map Json.str := by
    cases no <;> rfl
  have hNC : notesCheck (no.map Json.str) = .ok no := by
    cases no with
    | none => rfl
    | some ns =>
      have hle : ¬ ns.length > 10000 := by
        simpa [notesStrOk, Nat.not_lt] using hn
      simp [notesCheck, hle]
  show parseTransformRequest cfg (.obj (mkJsonFields s no)) = _
  simp only [parseTransformRequest, hT, hN, hNC]
  cases textCheck cfg (some (.str s)) <;> rfl

/-! ## Claim theorems -/

/-- C2 (amended): for a JSON body carrying `text` and in-budget notes, the
validator accepts exactly when the text length is in 1..MAX_INPUT_CHARS; a
text over the ceiling is answered 413 with the configured limit in the
message; a text of length 0 is answered 400; and in general a zod failure
is answered 413 whenever some issue is `too_big` (notes included) and 400
otherwise. -/
theorem c2_text_validation (cfg : Config) (s : String) (no : Option String)
    (hn : notesStrOk no = true) :
    (1 ≤ s.length ∧ s.length ≤ cfg.maxInputChars →
      validateRequest cfg (.jsonReq (.ok (mkJsonBody s no))) =
        .ok (.inr ⟨.textPayload s, no⟩)) ∧
    (cfg.maxInputChars < s.length →
      validateRequest cfg (.jsonReq (.ok (mkJsonBody s no))) =
        .ok (.inl ⟨413, .errorBody (textTooLargeMessage cfg), none⟩)) ∧
    (s.length = 0 →
      validateRequest cfg (.jsonReq (.ok (mkJsonBody s no))) =
        .ok (.inl ⟨400, .errorBody "Invalid request format", none⟩)) ∧
    (∀ (b : Json) (iss : List ZodIssueCode),
      parseTransformRequest cfg b = .error iss →
      validateRequest cfg (.jsonReq (.ok b)) =
        .ok (.inl (if iss.any (fun i => i == ZodIssueCode.too_big) then
            ⟨413, .errorBody (textTooLargeMessage cfg), none⟩
          else ⟨400, .errorBody "Invalid request format", none⟩))) := by
  have hmk := parseTransformRequest_mkJsonBody cfg s no hn
  refine ⟨fun h => ?_, fun h => ?_, fun h => ?_, fun b iss hb => ?_⟩
  · have htc : textCheck cfg (some (.str s)) = .ok s := by
      have h1 : ¬ s.length < 1 := by omega
      have h2 : ¬ s.length > cfg.maxInputChars := by omega
      simp [textCheck, h1, h2]
    rw [htc] at hmk
    simp [validateRequest, hmk]
  · have htc : textCheck cfg (some (.str s)) = .error [ZodIssueCode.too_big] := by
      have h1 : ¬ s.length < 1 := by omega
      have h2 : s.length > cfg.maxInputChars := h
      simp [textCheck, h1, h2]
    rw [htc] at hmk
    simp [validateRequest, hmk, List.any_cons]
    decide
  · have htc : textCheck cfg (some (.str s)) = .error [ZodIssueCode.too_small] := by
      have h1 : s.length < 1 := by omega
      have h2 : ¬ s.length > cfg.maxInputChars := by omega
      simp [textCheck, h1, h2]
    rw [htc] at hmk
    simp [validateRequest, hmk, List.any_cons]
    decide
  · simp only [validateRequest, hb]
    split <;> simp_all

/-- C2 counterexample: a JSON body whose `text` is a single character (well
inside 1..MAX_INPUT_CHARS) but whose `notes` is 10001 characters is a shape
violation answered 413 with the text-oversize message, not 400. -/
theorem c2_counterexample :
    validateRequest defaultConfig
        (.jsonReq (.ok (mkJsonBody "a" (some longNotes)))) =
      .ok (.inl ⟨413, .errorBody (textTooLargeMessage defaultConfig), none⟩) ∧
    ("a" : String).length = 1 ∧ 1 ≤ MAX_INPUT_CHARS ∧ longNotes.length = 10001 := by
  have hgt : jGet (mkJsonFields "a" (some longNotes)) "text" = some (.str "a") := rfl
  have hgn : jGet (mkJsonFields "a" (some longNotes)) "notes" =
      some (.str longNotes) := rfl
  have hN : notesCheck (some (.str longNotes)) = .error [ZodIssueCode.too_big] := by
    simp [notesCheck, longNotes_length]
  have hT : textCheck defaultConfig (some (.str "a")) = .ok "a" := rfl
  refine ⟨?_, rfl, by decide, longNotes_length⟩
  show validateRequest defaultConfig (.jsonReq (.ok (.obj (mkJsonFields "a" (some longNotes))))) = _
  simp [validateRequest, parseTransformRequest, hgt, hgn, hN, hT]
  decide

/-- C4 (amended): a multipart upload whose file exceeds the byte ceiling is
rejected 413 with a message stating the configured limit (the actual size
is not part of the message); every file within the ceiling passes the size
check. -/
theorem c4_file_size_gate (cfg : Config) (f : FileData) (ne : Option FormEntry)
    (hn : notesEntryOk ne = true) :
    (cfg.maxFileBytes < f.size →
      validateRequest cfg (.multipart (some (.file f)) ne) =
        .ok (.inl ⟨413, .errorBody (fileTooLargeMessage cfg), none⟩)) ∧
    (f.size ≤ cfg.maxFileBytes →
      validateRequest cfg (.multipart (some (.file f)) ne) =
        .ok (.inr ⟨.fileRef f, formNotesVal ne⟩)) := by
  have hstep : validateRequest cfg (.multipart (some (.file f)) ne) =
      (if f.size > cfg.maxFileBytes then
        .ok (.inl ⟨413, .errorBody (fileTooLargeMessage cfg), none⟩)
      else .ok (.inr ⟨.fileRef f, formNotesVal ne⟩)) := by
    cases ne with
    | none => rfl
    | some e =>
      cases e with
      | file fd => rfl
      | str s =>
        have hle : ¬ s.length > 10000 := by
          simpa [notesEntryOk, Nat.not_lt] using hn
        simp [validateRequest, formNotesVal, hle]
  refine ⟨fun h => ?_, fun h => ?_⟩
  · rw [hstep, if_pos h]
  · rw [hstep, if_neg (by omega)]

/-- C4 counterexample: at the default 10 MiB ceiling, a file of 10485761
bytes is rejected 413 with a message that carries the configured limit but
not the actual file size (in plain or grouped decimal form). -/
theorem c4_counterexample :
    validateRequest defaultConfig (.multipart (some (.file ⟨10485761⟩)) none) =
      .ok (.inl ⟨413, .errorBody (fileTooLargeMessage defaultConfig), none⟩) ∧
    substrB (toLocaleString 10485761) (fileTooLargeMessage defaultConfig) = false ∧
    substrB "10485761" (fileTooLargeMessage defaultConfig) = false ∧
    substrB (toLocaleString defaultConfig.maxFileBytes)
      (fileTooLargeMessage defaultConfig) = true := by
  exact ⟨rfl, by decide, by decide, by decide⟩

/-- C6: for every validated TransformResponse, the sanitizer keeps exactly
the `next_actions` entries whose `action` and `first_step` both hold a
non-whitespace character, preserving the relative order of the survivors
(the result is a sublist of the input), so every retained entry has
non-empty, non-whitespace `action` and `first_step`. -/
theorem c6_sanitizer_filter (r : TransformResponse) :
    (sanitize r).next_actions = r.next_actions.filter keepNextAction ∧
    List.Sublist (sanitize r).next_actions r.next_actions ∧
    ∀ a : NextAction, a ∈ (sanitize r).next_actions ↔
      (a ∈ r.next_actions ∧ (jsTrim a.action).length > 0 ∧
        (jsTrim a.first_step).length > 0) := by
  refine ⟨rfl, List.filter_sublist _, fun a => ?_⟩
  simp [sanitize, List.mem_filter, keepNextAction, and_assoc]

/-- C7: sanitization is idempotent — filtering the blank `next_actions`
entries twice yields the same response as filtering them once. -/
theorem c7_sanitize_idempotent (r : TransformResponse) :
    sanitize (sanitize r) = sanitize r := by
  simp [sanitize, List.filter_filter]

/-- C9: sanitization touches only `next_actions`: the delivered `title`,
`summary` and `sections` (headings and bullets included, even empty ones)
are exactly those of the validated model output. -/
theorem c9_sanitize_frame (r : TransformResponse) :
    (sanitize r).title = r.title ∧ (sanitize r).summary = r.summary ∧
    (sanitize r).sections = r.sections :=
  ⟨rfl, rfl, rfl⟩

/-- The restyle outcomes the handler recovers from locally: output absent,
empty, non-JSON, or JSON failing the response schema. -/
def rewriteSoftFails : Option RawOut → Bool
  | some (.parsed j) => (parseTransformResponse j).isNone
  | _ => true

/-- A provider error carrying an HTTP-like status. -/
def errBoom : JsVal := .obj [("status", .num 503), ("message", .str "upstream boom")]

/-- A provider error whose message needs trimming. -/
def errEx : JsVal := .obj [("status", .num 429), ("message", .str "  rate limited ")]

/-- Reduction of `POST` once the request passed validation: everything
after that point is determined by the two provider calls and the notes. -/
theorem POST_mk_eq (cfg : Config) (req : PostRequest) (p : Proceed)
    (c1 c2 : Except JsVal (Option RawOut))
    (hkey : req.hasApiKey = true)
    (hval : validateRequest cfg req.body = .ok (.inr p)) :
    POST cfg req ⟨c1, c2⟩ =
      (match processPass1 c1 with
       | .error .zodError => schemaErrorResponse
       | .error (.jsError e) =>
         ⟨(normalizeOpenAIError e).1, .errorBody (normalizeOpenAIError e).2, none⟩
       | .ok (.inl resp) => resp
       | .ok (.inr validated) =>
         match (if shouldApplyNotesRewritePass p.notes then
                  applyRewrite validated c2
                else .ok validated) with
         | .error .zodError => schemaErrorResponse
         | .error (.jsError e) =>
           ⟨(normalizeOpenAIError e).1, .errorBody (normalizeOpenAIError e).2, none⟩
         | .ok v => ⟨200, .success (sanitize v), some ((p.notes.getD "").length)⟩) := by
  cases h1 : processPass1 c1 with
  | error t => cases t <;> simp [POST, hkey, hval, h1]
  | ok sr =>
    cases sr with
    | inl resp => simp [POST, hkey, hval, h1]
    | inr validated =>
      cases hrw : (if shouldApplyNotesRewritePass p.notes then
          applyRewrite validated c2 else .ok validated) with
      | error t => cases t <;> simp [POST, hkey, hval, h1, hrw]
      | ok v => simp [POST, hkey, hval, h1, hrw]

/-- C1 counterexample: notes are present and the restyle call throws a
provider error; the request then fails with the normalized upstream error
instead of delivering the first pass's validated and sanitized result. -/
theorem c1_counterexample :
    POST defaultConfig reqNotes ⟨.ok (some (.parsed goodJson)), .error errBoom⟩ =
      ⟨503, .errorBody "upstream boom", none⟩ ∧
    shouldApplyNotesRewritePass (some "as a poem") = true ∧
    (⟨503, .errorBody "upstream boom", none⟩ : HttpResponse) ≠
      ⟨200, .success (sanitize goodResp), some 9⟩ :=
  ⟨rfl, rfl, by decide⟩

/-- C1 (amended): when notes are present and the restyle pass fails softly
(its output is absent, empty, non-JSON, or schema-invalid), the delivered
response is the first pass's validated and sanitized result; only a thrown
provider error during the restyle call fails the request. -/
theorem c1_restyle_fallback (cfg : Config) (req : PostRequest) (p : Proceed)
    (r : TransformResponse) (c1 : Except JsVal (Option RawOut)) (rw : Option RawOut)
    (hkey : req.hasApiKey = true)
    (hval : validateRequest cfg req.body = .ok (.inr p))
    (hnotes : shouldApplyNotesRewritePass p.notes = true)
    (h1 : processPass1 c1 = .ok (.inr r))
    (hsoft : rewriteSoftFails rw = true) :
    POST cfg req ⟨c1, .ok rw⟩ =
      ⟨200, .success (sanitize r), some ((p.notes.getD "").length)⟩ := by
  rw [POST_mk_eq cfg req p c1 (.ok rw) hkey hval]
  have hrw : applyRewrite r (.ok rw) = .ok r := by
    cases rw with
    | none => rfl
    | some ro =>
      cases ro with
      | empty => rfl
      | unparsable => rfl
      | parsed j =>
        have hj : parseTransformResponse j = none := by
          simpa [rewriteSoftFails, Option.isNone_iff_eq_none] using hsoft
        simp [applyRewrite, hj]
  simp [h1, hnotes, hrw]

theorem c1_restyle_fallback_witness :
    POST defaultConfig reqNotes ⟨.ok (some (.parsed goodJson)), .ok (some .unparsable)⟩ =
      ⟨200, .success (sanitize goodResp), some 9⟩ :=
  c1_restyle_fallback defaultConfig reqNotes ⟨.textPayload "hi", some "as a poem"⟩
    goodResp (.ok (some (.parsed goodJson))) (some .unparsable) rfl rfl rfl rfl rfl

/-- C3: whenever the first pass's output parses as JSON but fails the
TransformResponse schema, the response is the fixed 502 with an
error-string body, never a partial success. -/
theorem c3_schema_mismatch_502 (cfg : Config) (req : PostRequest)
    (c1 c2 : Except JsVal (Option RawOut)) (p : Proceed) (j : Json)
    (hkey : req.hasApiKey = true)
    (hval : validateRequest cfg req.body = .ok (.inr p))
    (h1 : c1 = .ok (some (.parsed j)))
    (hbad : parseTransformResponse j = none) :
    POST cfg req ⟨c1, c2⟩ = schemaErrorResponse := by
  rw [POST_mk_eq cfg req p c1 c2 hkey hval]
  simp [processPass1, h1, hbad]

theorem c3_schema_mismatch_502_witness :
    POST defaultConfig reqEx ⟨.ok (some (.parsed jMissingSummary)), .ok none⟩ =
      schemaErrorResponse :=
  c3_schema_mismatch_502 defaultConfig reqEx (.ok (some (.parsed jMissingSummary)))
    (.ok none) ⟨.textPayload "hi", none⟩ jMissingSummary rfl rfl rfl rfl

/-- C5: the code answers a multipart request whose notes exceed 10000
characters with the 502 "unexpected response shape" error (the zod error
thrown by the notes schema reaches the outer catch), before any model
call; the spec instead classifies oversized notes as a 400 validation
error. -/
theorem c5_oversized_notes_502 :
    POST defaultConfig ⟨true, .multipart (some (.file ⟨5⟩)) (some (.str longNotes))⟩
        oracleNone = schemaErrorResponse ∧
    longNotes.length = 10001 := by
  constructor
  · have hv : validateRequest defaultConfig
        (.multipart (some (.file ⟨5⟩)) (some (.str longNotes))) = .error .zodError := by
      simp [validateRequest, longNotes_length]
    simp [POST, hv]
  · exact longNotes_length

/-- C8: a thrown provider error (in either pass) is answered with exactly
the normalized status and message as an error-string body — the response
is a function of `normalizeOpenAIError` alone, so nothing else of the
thrown value reaches the client — and the normalized status is the error's
numeric `status` member, defaulting to 500 when absent. -/
theorem c8_upstream_normalization :
    (∀ (cfg : Config) (req : PostRequest) (p : Proceed) (e : JsVal)
        (c1 c2 : Except JsVal (Option RawOut)),
      req.hasApiKey = true →
      validateRequest cfg req.body = .ok (.inr p) →
      c1 = .error e →
      POST cfg req ⟨c1, c2⟩ =
        ⟨(normalizeOpenAIError e).1, .errorBody (normalizeOpenAIError e).2, none⟩) ∧
    (∀ (cfg : Config) (req : PostRequest) (p : Proceed) (r : TransformResponse)
        (c1 : Except JsVal (Option RawOut)) (e : JsVal),
      req.hasApiKey = true →
      validateRequest cfg req.body = .ok (.inr p) →
      shouldApplyNotesRewritePass p.notes = true →
      processPass1 c1 = .ok (.inr r) →
      POST cfg req ⟨c1, .error e⟩ =
        ⟨(normalizeOpenAIError e).1, .errorBody (normalizeOpenAIError e).2, none⟩) ∧
    (∀ e : JsVal, (normalizeOpenAIError e).1 = (getNumStatus e).getD 500) := by
  refine ⟨?_, ?_, ?_⟩
  · intro cfg req p e c1 c2 hkey hval h1
    rw [POST_mk_eq cfg req p c1 c2 hkey hval]
    simp [processPass1, h1]
  · intro cfg req p r c1 e hkey hval hnotes h1
    rw [POST_mk_eq cfg req p c1 (.error e) hkey hval]
    simp [h1, hnotes, applyRewrite]
  · intro e
    by_cases hc : (jsFalsy e || !jsTypeofObject e) = true
    · simp [normalizeOpenAIError, getNumStatus, hc]
    · simp only [normalizeOpenAIError, getNumStatus, hc]
      cases jsGetField e "status" <;> simp

theorem c8_upstream_normalization_witness :
    POST defaultConfig reqEx ⟨.error errEx, .ok none⟩ =
      ⟨(normalizeOpenAIError errEx).1, .errorBody (normalizeOpenAIError errEx).2, none⟩ :=
  c8_upstream_normalization.1 defaultConfig reqEx ⟨.textPayload "hi", none⟩ errEx
    (.error errEx) (.ok none) rfl rfl rfl

/-- C10: the restyle pass is gated on the notes holding a non-whitespace
character: the gate accepts exactly those notes; with empty or
whitespace-only notes the second call is never consulted and the response
status and body coincide with those of the same request with notes absent;
with passing notes and a valid first pass, a valid restyle output is the
one delivered. -/
theorem c10_notes_gating :
    (∀ no : Option String, shouldApplyNotesRewritePass no = true ↔
      ∃ s, no = some s ∧ ∃ c ∈ s.data, c.isWhitespace = false) ∧
    (∀ (cfg : Config) (req : PostRequest) (p : Proceed)
        (c1 c2 c2x : Except JsVal (Option RawOut)),
      validateRequest cfg req.body = .ok (.inr p) →
      shouldApplyNotesRewritePass p.notes = false →
      POST cfg req ⟨c1, c2⟩ = POST cfg req ⟨c1, c2x⟩) ∧
    (∀ (cfg : Config) (k : Bool) (b bx : ReqBody) (p px : Proceed) (oracle : Oracle),
      validateRequest cfg b = .ok (.inr p) →
      validateRequest cfg bx = .ok (.inr px) →
      px.payload = p.payload → px.notes = none →
      shouldApplyNotesRewritePass p.notes = false →
      (POST cfg ⟨k, b⟩ oracle).status = (POST cfg ⟨k, bx⟩ oracle).status ∧
      (POST cfg ⟨k, b⟩ oracle).body = (POST cfg ⟨k, bx⟩ oracle).body) ∧
    (∀ (cfg : Config) (req : PostRequest) (p : Proceed)
        (c1 : Except JsVal (Option RawOut)) (j2 : Json) (r r2 : TransformResponse),
      req.hasApiKey = true →
      validateRequest cfg req.body = .ok (.inr p) →
      shouldApplyNotesRewritePass p.notes = true →
      processPass1 c1 = .ok (.inr r) →
      parseTransformResponse j2 = some r2 →
      POST cfg req ⟨c1, .ok (some (.parsed j2))⟩ =
        ⟨200, .success (sanitize r2), some ((p.notes.getD "").length)⟩) := by
  refine ⟨?_, ?_, ?_, ?_⟩
  · intro no
    cases no with
    | none => simp [shouldApplyNotesRewritePass]
    | some s =>
      constructor
      · intro h
        simp only [shouldApplyNotesRewritePass, Bool.and_eq_true] at h
        exact ⟨s, rfl, (jsTrim_length_pos_iff s).mp (by simpa using h.2)⟩
      · rintro ⟨sx, hsx, hA⟩
        injection hsx with hsx
        subst hsx
        have hpos : (jsTrim s).length > 0 := (jsTrim_length_pos_iff s).mpr hA
        have hne : s ≠ "" := by
          rintro rfl
          obtain ⟨c, hc, _⟩ := hA
          have hd : ("" : String).data = [] := rfl
          rw [hd] at hc
          exact absurd hc (List.not_mem_nil c)
        simp [shouldApplyNotesRewritePass, hne, hpos]
  · intro cfg req p c1 c2 c2x hval hno
    obtain ⟨k, body⟩ := req
    cases k with
    | false => rfl
    | true =>
      rw [POST_mk_eq cfg ⟨true, body⟩ p c1 c2 rfl hval,
          POST_mk_eq cfg ⟨true, body⟩ p c1 c2x rfl hval]
      simp [hno]
  · intro cfg k b bx p px oracle hv hvx hpay hnone hno
    obtain ⟨c1, c2⟩ := oracle
    cases k with
    | false => exact ⟨rfl, rfl⟩
    | true =>
      rw [POST_mk_eq cfg ⟨true, b⟩ p c1 c2 rfl hv,
          POST_mk_eq cfg ⟨true, bx⟩ px c1 c2 rfl hvx]
      cases h1 : processPass1 c1 with
      | error t => cases t <;> simp
      | ok sr =>
        cases sr with
        | inl resp => simp
        | inr validated =>
          have hnx : shouldApplyNotesRewritePass none = false := rfl
          rw [hnone]
          simp [hno, hnx]
  · intro cfg req p c1 j2 r r2 hkey hval hnotes h1 hj2
    rw [POST_mk_eq cfg req p c1 (.ok (some (.parsed j2))) hkey hval]
    simp [h1, hnotes, applyRewrite, hj2]

theorem c10_notes_gating_witness :
    POST defaultConfig reqNotes ⟨.ok (some (.parsed goodJson)), .ok (some (.parsed goodJson2))⟩ =
      ⟨200, .success (sanitize goodResp2), some 9⟩ :=
  c10_notes_gating.2.2.2 defaultConfig reqNotes ⟨.textPayload "hi", some "as a poem"⟩
    (.ok (some (.parsed goodJson))) goodJson2 goodResp goodResp2 rfl rfl rfl rfl rfl

theorem c2_text_validation_witness :
    validateRequest defaultConfig (.jsonReq (.ok (mkJsonBody "hi" none))) =
      .ok (.inr ⟨.textPayload "hi", none⟩) :=
  (c2_text_validation defaultConfig "hi" none rfl).1 ⟨by decide, by decide⟩

theorem c4_file_size_gate_witness :
    validateRequest defaultConfig (.multipart (some (.file ⟨5⟩)) none) =
      .ok (.inr ⟨.fileRef ⟨5⟩, none⟩) :=
  (c4_file_size_gate defaultConfig ⟨5⟩ none rfl).2 (by decide)

end Transform
